import Mathlib

/-
  Shallow embedding of kernel/net/net_ipv6.c (KallistiOS IPv6 layer).

  Modelling conventions:
  * Machine integers are Nat/Int with explicit reductions (% 256, % 65536,
    % 2^32) exactly where the C performs a conversion.
  * The global `ipv6_stats` singleton is threaded explicitly as a `Stats`
    value; every stateful operation returns the updated statistics.
  * Calls into external collaborators (the interface transmit function
    pointer `if_tx`, the neighbour resolver `net_ndp_lookup`, the ICMPv6
    handler `net_icmp6_input`, the checksum primitive `net_ipv4_checksum`,
    and `net_multicast_add`/`net_multicast_del`) are modelled by oracles in
    an `Env` structure, and every such call is recorded in an event trace.
  * Byte buffers are `List Nat`; a well-formed buffer holds values < 256.
    Fixed-size C arrays (uint8[6] MACs, the 16 bytes of a struct in6_addr)
    are lists whose well-formedness (exact length, byte-sized entries) is a
    hypothesis where a theorem needs it.
  * The `errno` global is modelled by an `errno_set` output field: `some e`
    when the call assigned `errno = e`, `none` when it left errno alone.
-/

namespace NetIpv6

/-- Byte swap of a 16-bit value, as ntohs/htons behave on the little-endian
SH-4 target: the low byte becomes the high byte and conversely. -/
def ntohs (x : Nat) : Nat := (x % 256) * 256 + (x / 256) % 256

/-- Byte swap of a 32-bit value (htonl/ntohl on the little-endian SH-4). -/
def htonl (x : Nat) : Nat :=
  (x % 256) * 16777216 + (x / 256 % 256) * 65536 +
  (x / 65536 % 256) * 256 + (x / 16777216 % 256)

/-- struct in6_addr: its 16 address bytes (the s6_addr / __s6_addr8 view). -/
structure In6Addr where
  s6_addr : List Nat
deriving DecidableEq, Repr

/-- IN6ADDR_LOOPBACK_INIT, i.e. ::1. -/
def in6addr_loopback : In6Addr :=
  ⟨[0, 0, 0, 0, 0, 0, 0, 0, 0, 0, 0, 0, 0, 0, 0, 1]⟩

/-- IN6_IS_ADDR_LOOPBACK: the address is exactly ::1. -/
def IN6_IS_ADDR_LOOPBACK (a : In6Addr) : Bool :=
  a.s6_addr == [0, 0, 0, 0, 0, 0, 0, 0, 0, 0, 0, 0, 0, 0, 0, 1]

/-- IN6_IS_ADDR_MULTICAST: first byte is 0xFF. -/
def IN6_IS_ADDR_MULTICAST (a : In6Addr) : Bool :=
  a.s6_addr.getD 0 0 == 0xFF

/-- IN6_IS_ADDR_LINKLOCAL: first byte 0xFE and the top two bits of the
second byte are 10 (prefix fe80::/10). -/
def IN6_IS_ADDR_LINKLOCAL (a : In6Addr) : Bool :=
  a.s6_addr.getD 0 0 == 0xFE && (a.s6_addr.getD 1 0) &&& 0xC0 == 0x80

/-- The three fields of net_ipv6_stats_t that net_ipv6.c mutates. -/
structure Stats where
  pkt_sent : Nat
  pkt_send_failed : Nat
  pkt_recv_bad_size : Nat
deriving DecidableEq, Repr

/-- The fields of netif_t that net_ipv6.c reads.  ip6_addr_count is the
length of `ip6_addrs`; the if_tx function pointer lives in `Env`. -/
structure Netif where
  ip6_addrs : List In6Addr
  ip6_gateway : In6Addr
  ip6_lladdr : In6Addr
  mac_addr : List Nat
  hop_limit : Int
  mtu : Nat
deriving DecidableEq, Repr

/-- Outcome of net_ndp_lookup: 0 with a filled 6-byte MAC, -1 (failure),
or -2 (queued, try again later). -/
inductive NdpRes where
  | ok (mac : List Nat)
  | unreachable
  | pending
deriving DecidableEq, Repr

/-- A call into an external collaborator, recorded in program order. -/
inductive Event where
  | tx (frame : List Nat) (len : Nat) (flags : Nat) (ret : Int)
  | inputCall (src : Option Netif) (pkt : List Nat) (size : Int)
  | icmp6Call (src : Option Netif) (pkt : List Nat) (len : Nat)
  | ndpLookup (target : In6Addr)
  | mcastAdd (mac : List Nat)
  | mcastDel (mac : List Nat)
deriving DecidableEq, Repr

/-- True exactly on link-layer transmit events. -/
def Event.isTx : Event → Bool
  | .tx _ _ _ _ => true
  | _ => false

/-- The length argument of a transmit event, if any. -/
def Event.txLen : Event → Option Nat
  | .tx _ l _ _ => some l
  | _ => none

/-- The status the transmit oracle returned, for a transmit event. -/
def Event.txRet : Event → Option Int
  | .tx _ _ _ r => some r
  | _ => none

/-- The external world: the default device pointer and the collaborator
functions net_ipv6.c calls, as deterministic oracles. -/
structure Env where
  net_default_dev : Option Netif
  ndp : In6Addr → NdpRes
  icmp6 : Option Netif → List Nat → Nat → Int
  chk : List Nat → Nat → Nat
  if_tx : List Nat → Nat → Nat → Int

/-- IPV6_HDR_ICMP: the ICMPv6 next-header protocol number. -/
def IPV6_HDR_ICMP : Nat := 58

/-- Modelled from the spec: NETIF_BLOCK, the blocking-mode flag passed to
the interface transmit operation (kos/net.h is not under src/). -/
def NETIF_BLOCK : Nat := 1

/-- Modelled from the spec: newlib's ENETUNREACH errno value, the
NetworkUnreachable code (errno.h is not under src/). -/
def ENETUNREACH : Nat := 114

/-- ipv6_hdr_t.  `length` holds the stored (already byte-swapped) uint16
value, exactly as the C struct field does; `lclass` is the 2-byte field
the source zeroes. -/
structure Ipv6Hdr where
  version_lclass : Nat
  hclass_lflow : Nat
  lclass : Nat
  length : Nat
  next_header : Nat
  hop_limit : Nat
  src_addr : In6Addr
  dst_addr : In6Addr
deriving DecidableEq, Repr

/-- The byte image of an ipv6_hdr_t as memcpy sees it on the little-endian
target: two single-byte class fields, the 2-byte `lclass` and 2-byte
`length` fields little-endian, next-header, hop-limit, then the two
16-byte addresses. -/
def serializeHdr (h : Ipv6Hdr) : List Nat :=
  [h.version_lclass % 256, h.hclass_lflow % 256,
   h.lclass % 256, h.lclass / 256 % 256,
   h.length % 256, h.length / 256 % 256,
   h.next_header % 256, h.hop_limit % 256] ++
  h.src_addr.s6_addr ++ h.dst_addr.s6_addr

/-- `ntohs(ip->length)` for a packet buffer: the uint16 at byte offset 4
(little-endian in memory), byte-swapped. -/
def declared_len (pkt : List Nat) : Nat :=
  ntohs (pkt.getD 4 0 + 256 * pkt.getD 5 0)

/-- Result of one engine entry point: return value, updated statistics,
trace of external calls, and what the call assigned to errno (if
anything). -/
structure EngineOut where
  ret : Int
  stats : Stats
  events : List Event
  errno_set : Option Nat
deriving DecidableEq, Repr

/-- static int is_in_network(netif_t *net, const struct in6_addr *ip):
link-local addresses count as on-link, else the first 8 bytes are compared
(memcmp(ip, &net->ip6_addrs[i], 8)) against each configured address. -/
def is_in_network (net : Netif) (ip : In6Addr) : Bool :=
  IN6_IS_ADDR_LINKLOCAL ip ||
  net.ip6_addrs.any fun a => ip.s6_addr.take 8 == a.s6_addr.take 8

/-- int net_ipv6_input(netif_t *src, const uint8 *pkt, int pktsize).
Both size checks compare the signed `pktsize` against expressions of the
unsigned type size_t (`sizeof(ipv6_hdr_t)`, `len + sizeof(ipv6_hdr_t)`),
so `pktsize` is converted to a 32-bit unsigned value first; `usize` below
is that converted value.  `declared_len` is `ntohs(ip->length)`, which is
always < 65536, so `len + 40` needs no further reduction. -/
def net_ipv6_input (env : Env) (st : Stats) (src : Option Netif)
    (pkt : List Nat) (pktsize : Int) : EngineOut :=
  let usize : Nat := (pktsize % (4294967296 : Int)).toNat
  if usize < 40 then
    ⟨-1, { st with pkt_recv_bad_size := st.pkt_recv_bad_size + 1 }, [], none⟩
  else
    let len := declared_len pkt
    if usize < len + 40 then
      ⟨-1, { st with pkt_recv_bad_size := st.pkt_recv_bad_size + 1 }, [], none⟩
    else
      if pkt.getD 6 0 == IPV6_HDR_ICMP then
        ⟨env.icmp6 src pkt len, st, [Event.icmp6Call src pkt len], none⟩
      else
        ⟨-1, st, [], none⟩

/-- Lines 101-118 of net_ipv6.c: fill in the Ethernet header (6-byte
destination MAC, 6-byte source MAC from net->mac_addr, ethertype 86 DD),
append the serialized IPv6 header and the payload, bump pkt_sent, and
invoke if_tx in blocking mode with the full frame length.  The value if_tx
returns is recorded in the trace but, as in the source, not used. -/
def assemble_tx (env : Env) (st : Stats) (net : Netif) (hdr : Ipv6Hdr)
    (data : List Nat) (dst_mac : List Nat) (pre : List Event) : EngineOut :=
  let frame := dst_mac.take 6 ++ net.mac_addr.take 6 ++ [0x86, 0xDD] ++
               serializeHdr hdr ++ data
  let flen := 40 + data.length + 14
  ⟨0, { st with pkt_sent := st.pkt_sent + 1 },
   pre ++ [Event.tx frame flen NETIF_BLOCK (env.if_tx frame flen NETIF_BLOCK)],
   none⟩

/-- int net_ipv6_send_packet(netif_t *net, ipv6_hdr_t *hdr, const uint8
*data, int data_size), with data_size equal to the length of `data`. -/
def net_ipv6_send_packet (env : Env) (st : Stats) (net? : Option Netif)
    (hdr : Ipv6Hdr) (data : List Nat) : EngineOut :=
  match (match net? with | some n => some n | none => env.net_default_dev) with
  | none => ⟨-1, st, [], none⟩
  | some net =>
    if IN6_IS_ADDR_LOOPBACK hdr.dst_addr then
      let buf := serializeHdr hdr ++ data
      let st1 := { st with pkt_sent := st.pkt_sent + 1 }
      let r := net_ipv6_input env st1 none buf ((40 + data.length : Nat) : Int)
      ⟨0, r.stats, Event.inputCall none buf ((40 + data.length : Nat) : Int) :: r.events,
       r.errno_set⟩
    else if IN6_IS_ADDR_MULTICAST hdr.dst_addr then
      let m := hdr.dst_addr.s6_addr
      assemble_tx env st net hdr data
        [0x33, 0x33, m.getD 12 0, m.getD 13 0, m.getD 14 0, m.getD 15 0] []
    else
      let dst := if is_in_network net hdr.dst_addr then hdr.dst_addr
                 else net.ip6_gateway
      match env.ndp dst with
      | NdpRes.unreachable =>
        ⟨-1, { st with pkt_send_failed := st.pkt_send_failed + 1 },
         [Event.ndpLookup dst], some ENETUNREACH⟩
      | NdpRes.pending =>
        ⟨-2, { st with pkt_send_failed := st.pkt_send_failed + 1 },
         [Event.ndpLookup dst], none⟩
      | NdpRes.ok mac =>
        assemble_tx env st net hdr data mac [Event.ndpLookup dst]

/-- Lines 134-151 of net_ipv6.c: the ipv6_hdr_t that net_ipv6_send builds.
`hdr.length = ntohs(data_size)` converts the int to uint16 first;
`hdr.hop_limit` and `hdr.next_header` are uint8 fields, so the selected
int value is reduced mod 256 on assignment. -/
def mkSendHdr (net : Netif) (data_size : Nat) (hop_limit : Int)
    (proto : Nat) (src dst : In6Addr) : Ipv6Hdr :=
  { version_lclass := 0x60
    hclass_lflow := 0
    lclass := 0
    length := ntohs (data_size % 65536)
    next_header := proto % 256
    hop_limit := ((if hop_limit ≠ 0 then hop_limit
                   else if net.hop_limit ≠ 0 then net.hop_limit
                   else 255) % 256).toNat
    src_addr := src
    dst_addr := dst }

/-- int net_ipv6_send(netif_t *net, const uint8 *data, int data_size, int
hop_limit, int proto, const struct in6_addr *src, const struct in6_addr
*dst), with data_size equal to the length of `data`. -/
def net_ipv6_send (env : Env) (st : Stats) (net? : Option Netif)
    (data : List Nat) (hop_limit : Int) (proto : Nat)
    (src dst : In6Addr) : EngineOut :=
  match (match net? with | some n => some n | none => env.net_default_dev) with
  | none => ⟨-1, st, [], none⟩
  | some net =>
    net_ipv6_send_packet env st (some net)
      (mkSendHdr net data.length hop_limit proto src dst) data

/-- The four memory bytes of a uint32 field on the little-endian target. -/
def serializeU32LE (x : Nat) : List Nat :=
  [x % 256, x / 256 % 256, x / 65536 % 256, x / 16777216 % 256]

/-- Modelled from the spec: ipv6_pseudo_hdr_t (declared in net_ipv6.h,
which is not under src/) — source address, destination address, a uint32
upper-layer-length field, three zero bytes, and the next-header byte.
`upper_layer_len` holds the stored (already byte-swapped) uint32 value. -/
structure Ipv6PseudoHdr where
  src_addr : In6Addr
  dst_addr : In6Addr
  upper_layer_len : Nat
  next_header : Nat
deriving DecidableEq, Repr

/-- Byte image of an ipv6_pseudo_hdr_t as memcpy/the checksum primitive
see it: the two addresses, the uint32 field little-endian, the three zero
bytes, the next-header byte. -/
def serializePseudoHdr (ps : Ipv6PseudoHdr) : List Nat :=
  ps.src_addr.s6_addr ++ ps.dst_addr.s6_addr ++
  serializeU32LE ps.upper_layer_len ++ [0, 0, 0] ++ [ps.next_header % 256]

/-- uint16 net_ipv6_checksum_pseudo(const struct in6_addr *src, const
struct in6_addr *dst, uint32 upper_len, uint8 next_hdr): build the pseudo
header with upper_layer_len = htonl(upper_len), run the injected
net_ipv4_checksum primitive over its bytes with seed 0, and return the
bitwise complement of the primitive's uint16 result (~x on a uint16 value
x is 65535 - x). -/
def net_ipv6_checksum_pseudo (env : Env) (src dst : In6Addr)
    (upper_len next_hdr : Nat) : Nat :=
  let ps : Ipv6PseudoHdr :=
    { src_addr := src, dst_addr := dst,
      upper_layer_len := htonl upper_len, next_header := next_hdr }
  65535 - env.chk (serializePseudoHdr ps) 0 % 65536

/-- The all-nodes multicast MAC 33:33:00:00:00:01 joined first by init. -/
def all_nodes_mac : List Nat := [0x33, 0x33, 0x00, 0x00, 0x00, 0x01]

/-- The solicited-node multicast MAC derived in init and shutdown:
33:33:FF followed by bytes 13..15 of the default device's link-local
address. -/
def solicited_mac (nd : Netif) : List Nat :=
  [0x33, 0x33, 0xFF, nd.ip6_lladdr.s6_addr.getD 13 0,
   nd.ip6_lladdr.s6_addr.getD 14 0, nd.ip6_lladdr.s6_addr.getD 15 0]

/-- int net_ipv6_init(): join the all-nodes group, then the solicited-node
group of net_default_dev's link-local address.  The source dereferences
net_default_dev unconditionally, so a missing default device has no
defined behaviour and is modelled as `none`. -/
def net_ipv6_init (env : Env) : Option (Int × List Event) :=
  match env.net_default_dev with
  | none => none
  | some nd =>
    some (0, [Event.mcastAdd all_nodes_mac, Event.mcastAdd (solicited_mac nd)])

/-- void net_ipv6_shutdown(): leave the same two groups, derived the same
way. -/
def net_ipv6_shutdown (env : Env) : Option (List Event) :=
  match env.net_default_dev with
  | none => none
  | some nd =>
    some [Event.mcastDel all_nodes_mac, Event.mcastDel (solicited_mac nd)]

/-! Concrete test fixtures used to instantiate the theorems below. -/

/-- 2001:db8::1, a global unicast address used as source. -/
def addrA : In6Addr :=
  ⟨[0x20, 0x01, 0x0D, 0xB8, 0, 0, 0, 0, 0, 0, 0, 0, 0, 0, 0, 1]⟩

/-- 2001:db8::2, a global unicast address used as destination. -/
def addrB : In6Addr :=
  ⟨[0x20, 0x01, 0x0D, 0xB8, 0, 0, 0, 0, 0, 0, 0, 0, 0, 0, 0, 2]⟩

/-- ff02::1, the all-nodes multicast address. -/
def allNodesDst : In6Addr :=
  ⟨[0xFF, 0x02, 0, 0, 0, 0, 0, 0, 0, 0, 0, 0, 0, 0, 0, 1]⟩

/-- fe80::12:3456, a link-local address for the test interface. -/
def llAddr : In6Addr :=
  ⟨[0xFE, 0x80, 0, 0, 0, 0, 0, 0, 0, 0, 0, 0, 0, 0x12, 0x34, 0x56]⟩

/-- A test interface: one configured prefix, a gateway, hop-limit 64,
MTU 1500, MAC 02:00:00:00:00:01. -/
def net0 : Netif :=
  { ip6_addrs := [addrA]
    ip6_gateway := addrB
    ip6_lladdr := llAddr
    mac_addr := [0x02, 0, 0, 0, 0, 0x01]
    hop_limit := 64
    mtu := 1500 }

/-- Zeroed statistics, as at startup. -/
def st0 : Stats := ⟨0, 0, 0⟩

/-- A benign environment: default device `net0`, resolver always succeeds
with MAC 00:01:02:03:04:05, all other oracles return 0. -/
def env0 : Env :=
  { net_default_dev := some net0
    ndp := fun _ => NdpRes.ok [0, 1, 2, 3, 4, 5]
    icmp6 := fun _ _ _ => 0
    chk := fun _ _ => 0
    if_tx := fun _ _ _ => 0 }

/-- Like env0, but every transmit reports failure (-1). -/
def envFailTx : Env := { env0 with if_tx := fun _ _ _ => -1 }

/-- The payload "PING". -/
def dataPING : List Nat := [0x50, 0x49, 0x4E, 0x47]

/-- Header of a loopback send of "PING" with next-header 58. -/
def hdrLoop : Ipv6Hdr := mkSendHdr net0 4 0 58 addrA in6addr_loopback

/-- Header of a 3-byte UDP-ish send to ff02::1. -/
def hdrMc : Ipv6Hdr := mkSendHdr net0 3 0 17 addrA allNodesDst

/-- Header of a 3-byte send to the unicast destination addrB. -/
def hdrUni : Ipv6Hdr := mkSendHdr net0 3 0 17 addrA addrB

/-- A 2000-byte payload, larger than net0's 1500-byte MTU. -/
def bigData : List Nat := List.replicate 2000 0

/-- Header of the oversized multicast send. -/
def hdrBig : Ipv6Hdr := mkSendHdr net0 2000 0 17 addrA allNodesDst

/-- A 50-byte inbound buffer whose header declares payload length 100
(wire bytes 4..5 are 00 64) and next-header 58: total implied size 140. -/
def pkt50 : List Nat :=
  [0x60, 0, 0, 0, 0, 100, 58, 64] ++ addrA.s6_addr ++ addrB.s6_addr ++
  List.replicate 10 0

/-! Helper lemmas shared by the claim theorems. -/

theorem ntohs_lt_65536 (x : Nat) : ntohs x < 65536 := by
  unfold ntohs; omega

theorem declared_len_lt_65536 (pkt : List Nat) : declared_len pkt < 65536 :=
  ntohs_lt_65536 _

theorem input_stats_pkt_sent (env : Env) (st : Stats) (src : Option Netif)
    (pkt : List Nat) (n : Int) :
    (net_ipv6_input env st src pkt n).stats.pkt_sent = st.pkt_sent := by
  simp only [net_ipv6_input]
  split_ifs <;> rfl

theorem input_stats_pkt_send_failed (env : Env) (st : Stats) (src : Option Netif)
    (pkt : List Nat) (n : Int) :
    (net_ipv6_input env st src pkt n).stats.pkt_send_failed = st.pkt_send_failed := by
  simp only [net_ipv6_input]
  split_ifs <;> rfl

theorem input_events_no_tx (env : Env) (st : Stats) (src : Option Netif)
    (pkt : List Nat) (n : Int) :
    ∀ e ∈ (net_ipv6_input env st src pkt n).events, e.isTx = false := by
  simp only [net_ipv6_input]
  split_ifs <;> simp [Event.isTx]

theorem drop13_of_len16 (l : List Nat) (h : l.length = 16) :
    l.drop 13 = [l.getD 13 0, l.getD 14 0, l.getD 15 0] := by
  have h13 : 13 < l.length := by omega
  have h14 : 14 < l.length := by omega
  have h15 : 15 < l.length := by omega
  rw [List.drop_eq_getElem_cons h13, List.drop_eq_getElem_cons h14,
      List.drop_eq_getElem_cons h15, List.drop_of_length_le (by omega)]
  simp [List.getD_eq_getElem?_getD, List.getElem?_eq_getElem, h13, h14, h15]

theorem serializeU32LE_of_bytes (a b c d : Nat)
    (ha : a < 256) (hb : b < 256) (hc : c < 256) (hd : d < 256) :
    serializeU32LE (a * 16777216 + b * 65536 + c * 256 + d) = [d, c, b, a] := by
  simp only [serializeU32LE, List.cons.injEq, and_true]
  refine ⟨?_, ?_, ?_, ?_⟩ <;> omega

theorem serializeU32LE_htonl (x : Nat) :
    serializeU32LE (htonl x) =
      [x / 16777216 % 256, x / 65536 % 256, x / 256 % 256, x % 256] := by
  have h := serializeU32LE_of_bytes (x % 256) (x / 256 % 256) (x / 65536 % 256)
    (x / 16777216 % 256) (by omega) (by omega) (by omega) (by omega)
  simpa [htonl] using h

theorem loopback_s6_addr {a : In6Addr} (h : IN6_IS_ADDR_LOOPBACK a = true) :
    a.s6_addr = [0, 0, 0, 0, 0, 0, 0, 0, 0, 0, 0, 0, 0, 0, 0, 1] := by
  simpa [IN6_IS_ADDR_LOOPBACK] using h

theorem send_packet_loopback_eq (env : Env) (st : Stats) (net : Netif)
    (hdr : Ipv6Hdr) (data : List Nat)
    (hdst : IN6_IS_ADDR_LOOPBACK hdr.dst_addr = true) :
    net_ipv6_send_packet env st (some net) hdr data =
      ⟨0,
       (net_ipv6_input env { st with pkt_sent := st.pkt_sent + 1 } none
          (serializeHdr hdr ++ data) ((40 + data.length : Nat) : Int)).stats,
       Event.inputCall none (serializeHdr hdr ++ data)
           ((40 + data.length : Nat) : Int) ::
         (net_ipv6_input env { st with pkt_sent := st.pkt_sent + 1 } none
            (serializeHdr hdr ++ data) ((40 + data.length : Nat) : Int)).events,
       (net_ipv6_input env { st with pkt_sent := st.pkt_sent + 1 } none
          (serializeHdr hdr ++ data) ((40 + data.length : Nat) : Int)).errno_set⟩ := by
  simp [net_ipv6_send_packet, hdst]

/-- Claim C1: a send to the loopback address ::1 serializes the 40-byte
header followed by the payload, bumps the packets-sent counter by exactly
one, invokes net_ipv6_input on that buffer with no source interface, and
returns success; no link-layer frame is built and no transmit occurs. -/
theorem C1_loopback_send (env : Env) (st : Stats) (net : Netif)
    (hdr : Ipv6Hdr) (data : List Nat) (out : EngineOut)
    (hout : out = net_ipv6_send_packet env st (some net) hdr data)
    (hdst : IN6_IS_ADDR_LOOPBACK hdr.dst_addr = true)
    (hsrc : hdr.src_addr.s6_addr.length = 16) :
    out.ret = 0 ∧
    out.stats.pkt_sent = st.pkt_sent + 1 ∧
    (serializeHdr hdr).length = 40 ∧
    out.events.head? = some (Event.inputCall none (serializeHdr hdr ++ data)
      ((40 + data.length : Nat) : Int)) ∧
    ∀ e ∈ out.events, e.isTx = false := by
  have hdeq := loopback_s6_addr hdst
  subst hout
  rw [send_packet_loopback_eq env st net hdr data hdst]
  refine ⟨rfl, input_stats_pkt_sent env _ none _ _, ?_, rfl, ?_⟩
  · simp [serializeHdr, hsrc, hdeq]
  · intro e he
    rcases List.mem_cons.mp he with h | h
    · subst h; rfl
    · exact input_events_no_tx env _ none _ _ e h

/-- Witness for C1 at a concrete loopback send of "PING". -/
theorem C1_loopback_send_witness :
    IN6_IS_ADDR_LOOPBACK hdrLoop.dst_addr = true ∧
    hdrLoop.src_addr.s6_addr.length = 16 ∧
    (net_ipv6_send_packet env0 st0 (some net0) hdrLoop dataPING).ret = 0 ∧
    (net_ipv6_send_packet env0 st0 (some net0) hdrLoop dataPING).stats.pkt_sent
      = st0.pkt_sent + 1 :=
  ⟨by decide, by decide,
   (C1_loopback_send env0 st0 net0 hdrLoop dataPING _ rfl (by decide) (by decide)).1,
   (C1_loopback_send env0 st0 net0 hdrLoop dataPING _ rfl (by decide) (by decide)).2.1⟩

/-- Claim C4: an inbound buffer whose (non-negative) size is below the
40-byte fixed header, or below 40 plus the declared payload length, is
rejected with an error, the bad-size counter goes up by exactly one, the
sent and send-failed counters are untouched, and no external call is
made (the model is total: no crash on malformed input). -/
theorem C4_input_bad_size (env : Env) (st : Stats) (src : Option Netif)
    (pkt : List Nat) (pktsize : Int) (out : EngineOut)
    (hout : out = net_ipv6_input env st src pkt pktsize)
    (h0 : 0 ≤ pktsize) (h31 : pktsize < 2147483648)
    (hbad : pktsize < 40 ∨ pktsize < (declared_len pkt : Int) + 40) :
    out.ret = -1 ∧
    out.stats.pkt_recv_bad_size = st.pkt_recv_bad_size + 1 ∧
    out.stats.pkt_sent = st.pkt_sent ∧
    out.stats.pkt_send_failed = st.pkt_send_failed ∧
    out.events = [] := by
  subst hout
  simp only [net_ipv6_input]
  have hu : ((pktsize % 4294967296).toNat : Int) = pktsize := by omega
  by_cases h1 : (pktsize % 4294967296).toNat < 40
  · rw [if_pos h1]
    exact ⟨rfl, rfl, rfl, rfl, rfl⟩
  · rw [if_neg h1]
    have h2 : (pktsize % 4294967296).toNat < declared_len pkt + 40 := by
      rcases hbad with hb | hb <;> omega
    rw [if_pos h2]
    exact ⟨rfl, rfl, rfl, rfl, rfl⟩

/-- Witness for C4: a 50-byte buffer declaring payload length 100. -/
theorem C4_input_bad_size_witness :
    (0 : Int) ≤ 50 ∧ (50 : Int) < 2147483648 ∧
    ((50 : Int) < 40 ∨ (50 : Int) < (declared_len pkt50 : Int) + 40) ∧
    (net_ipv6_input env0 st0 none pkt50 50).ret = -1 ∧
    (net_ipv6_input env0 st0 none pkt50 50).stats.pkt_recv_bad_size
      = st0.pkt_recv_bad_size + 1 ∧
    (net_ipv6_input env0 st0 none pkt50 50).stats.pkt_sent = st0.pkt_sent ∧
    (net_ipv6_input env0 st0 none pkt50 50).stats.pkt_send_failed
      = st0.pkt_send_failed :=
  ⟨by decide, by decide, Or.inr (by decide),
   (C4_input_bad_size env0 st0 none pkt50 50 _ rfl (by decide) (by decide)
      (Or.inr (by decide))).1,
   (C4_input_bad_size env0 st0 none pkt50 50 _ rfl (by decide) (by decide)
      (Or.inr (by decide))).2.1,
   (C4_input_bad_size env0 st0 none pkt50 50 _ rfl (by decide) (by decide)
      (Or.inr (by decide))).2.2.1,
   (C4_input_bad_size env0 st0 none pkt50 50 _ rfl (by decide) (by decide)
      (Or.inr (by decide))).2.2.2.1⟩

/-- Claim C10: a negative size argument to net_ipv6_input is converted to
a large unsigned value by the comparisons against sizeof expressions, so
the packet is not rejected as too small, the bad-size counter (and every
other counter) is unchanged, and input proceeds to parse the header and
dispatch on its next-header byte. -/
theorem C10_negative_size_not_rejected (env : Env) (st : Stats)
    (src : Option Netif) (pkt : List Nat) (pktsize : Int) (out : EngineOut)
    (hout : out = net_ipv6_input env st src pkt pktsize)
    (hneg : pktsize < 0) (hrange : -2147483648 ≤ pktsize) :
    out.stats = st ∧
    out.stats.pkt_recv_bad_size = st.pkt_recv_bad_size ∧
    (pkt.getD 6 0 = IPV6_HDR_ICMP →
      out.ret = env.icmp6 src pkt (declared_len pkt) ∧
      out.events = [Event.icmp6Call src pkt (declared_len pkt)]) ∧
    (pkt.getD 6 0 ≠ IPV6_HDR_ICMP → out.ret = -1 ∧ out.events = []) := by
  subst hout
  have hlen : declared_len pkt < 65536 := declared_len_lt_65536 pkt
  have h1 : ¬ (pktsize % 4294967296).toNat < 40 := by omega
  have h2 : ¬ (pktsize % 4294967296).toNat < declared_len pkt + 40 := by omega
  simp only [net_ipv6_input]
  rw [if_neg h1, if_neg h2]
  by_cases hh : pkt.getD 6 0 = IPV6_HDR_ICMP
  · rw [if_pos (by rw [hh]; exact beq_self_eq_true _)]
    exact ⟨rfl, rfl, fun _ => ⟨rfl, rfl⟩, fun hc => absurd hh hc⟩
  · rw [if_neg (by simpa using hh)]
    exact ⟨rfl, rfl, fun hc => absurd hc hh, fun _ => ⟨rfl, rfl⟩⟩

/-- Witness for C10: the 50-byte buffer passed with size -5 is parsed and
dispatched to the ICMPv6 handler instead of being dropped. -/
theorem C10_negative_size_not_rejected_witness :
    (-5 : Int) < 0 ∧ (-2147483648 : Int) ≤ -5 ∧
    (net_ipv6_input env0 st0 none pkt50 (-5)).stats = st0 ∧
    ((net_ipv6_input env0 st0 none pkt50 (-5)).ret
        = env0.icmp6 none pkt50 (declared_len pkt50) ∧
      (net_ipv6_input env0 st0 none pkt50 (-5)).events
        = [Event.icmp6Call none pkt50 (declared_len pkt50)]) :=
  ⟨by decide, by decide,
   (C10_negative_size_not_rejected env0 st0 none pkt50 (-5) _ rfl (by decide)
      (by decide)).1,
   (C10_negative_size_not_rejected env0 st0 none pkt50 (-5) _ rfl (by decide)
      (by decide)).2.2.1 (by decide)⟩

/-- Counterexample to claim C5 as stated: hop_limit = 256 is a non-zero
argument, yet the hop-limit written into the header (and serialized into
the wire byte at offset 7 of the buffer handed to input by a loopback
send) is 0, not 256, because ipv6_hdr_t.hop_limit is a uint8. -/
theorem C5_hop_limit_claim_cex :
    (256 : Int) ≠ 0 ∧
    (mkSendHdr net0 0 256 58 addrA in6addr_loopback).hop_limit = 0 ∧
    (mkSendHdr net0 0 256 58 addrA in6addr_loopback).hop_limit ≠ 256 ∧
    (net_ipv6_send env0 st0 (some net0) [] 256 58 addrA in6addr_loopback).events.head?
      = some (Event.inputCall none
          (serializeHdr (mkSendHdr net0 0 256 58 addrA in6addr_loopback)) 40) ∧
    (serializeHdr (mkSendHdr net0 0 256 58 addrA in6addr_loopback)).getD 7 0 = 0 := by
  decide

/-- Claim C5 (amended): the hop-limit written into the header follows
first-non-zero-wins precedence — explicit argument, then the interface
default, then 255 — with the selected int value reduced modulo 256 on
assignment to the uint8 header field; net_ipv6_send builds exactly this
header and hands it to net_ipv6_send_packet. -/
theorem C5_hop_limit_precedence_mod256 (env : Env) (st : Stats) (net : Netif)
    (data : List Nat) (hop_limit : Int) (proto : Nat) (src dst : In6Addr) :
    (hop_limit ≠ 0 →
      (mkSendHdr net data.length hop_limit proto src dst).hop_limit
        = (hop_limit % 256).toNat) ∧
    (hop_limit = 0 → net.hop_limit ≠ 0 →
      (mkSendHdr net data.length hop_limit proto src dst).hop_limit
        = (net.hop_limit % 256).toNat) ∧
    (hop_limit = 0 → net.hop_limit = 0 →
      (mkSendHdr net data.length hop_limit proto src dst).hop_limit = 255) ∧
    net_ipv6_send env st (some net) data hop_limit proto src dst
      = net_ipv6_send_packet env st (some net)
          (mkSendHdr net data.length hop_limit proto src dst) data := by
  refine ⟨?_, ?_, ?_, rfl⟩
  · intro h1; simp [mkSendHdr, h1]
  · intro h1 h2; simp [mkSendHdr, h1, h2]
  · intro h1 h2; simp [mkSendHdr, h1, h2]

/-- Witness for the amended C5: explicit hop_limit 5 is written as 5 even
though net0's default is 64; with argument 0 the default 64 is written. -/
theorem C5_hop_limit_precedence_mod256_witness :
    ((5 : Int) ≠ 0 ∧
      (mkSendHdr net0 dataPING.length 5 17 addrA addrB).hop_limit
        = ((5 : Int) % 256).toNat) ∧
    ((0 : Int) = 0 ∧ net0.hop_limit ≠ 0 ∧
      (mkSendHdr net0 dataPING.length 0 17 addrA addrB).hop_limit
        = (net0.hop_limit % 256).toNat) :=
  ⟨⟨by decide,
    (C5_hop_limit_precedence_mod256 env0 st0 net0 dataPING 5 17 addrA addrB).1
      (by decide)⟩,
   ⟨rfl, by decide,
    (C5_hop_limit_precedence_mod256 env0 st0 net0 dataPING 0 17 addrA addrB).2.1
      rfl (by decide)⟩⟩

/-- Claim C6: net_ipv6_checksum_pseudo equals the bitwise complement (on
16 bits, 65535 - x) of the injected checksum primitive applied with seed 0
to the 40-byte pseudo-header laid out as 16-byte source, 16-byte
destination, 4-byte big-endian upper-layer length, 3 zero bytes and the
next-header byte; determinism and freedom from side effects hold by
construction, the model being a pure function that neither reads nor
writes Stats. -/
theorem C6_checksum_pseudo_layout (env : Env) (src dst : In6Addr)
    (ul nh : Nat)
    (hs : src.s6_addr.length = 16) (hd : dst.s6_addr.length = 16) :
    net_ipv6_checksum_pseudo env src dst ul nh =
      65535 - env.chk (src.s6_addr ++ dst.s6_addr ++
        [ul / 16777216 % 256, ul / 65536 % 256, ul / 256 % 256, ul % 256] ++
        [0, 0, 0] ++ [nh % 256]) 0 % 65536 ∧
    (src.s6_addr ++ dst.s6_addr ++
        [ul / 16777216 % 256, ul / 65536 % 256, ul / 256 % 256, ul % 256] ++
        [0, 0, 0] ++ [nh % 256]).length = 40 := by
  constructor
  · simp [net_ipv6_checksum_pseudo, serializePseudoHdr, serializeU32LE_htonl]
  · simp [hs, hd]

/-- Witness for C6 at concrete addresses and length. -/
theorem C6_checksum_pseudo_layout_witness :
    addrA.s6_addr.length = 16 ∧ addrB.s6_addr.length = 16 ∧
    net_ipv6_checksum_pseudo env0 addrA addrB 4 58 =
      65535 - env0.chk (addrA.s6_addr ++ addrB.s6_addr ++
        [4 / 16777216 % 256, 4 / 65536 % 256, 4 / 256 % 256, 4 % 256] ++
        [0, 0, 0] ++ [58 % 256]) 0 % 65536 :=
  ⟨by decide, by decide,
   (C6_checksum_pseudo_layout env0 addrA addrB 4 58 (by decide) (by decide)).1⟩

/-- Claim C9: init joins exactly the all-nodes MAC 33:33:00:00:00:01 and
the solicited-node MAC 33:33:FF ++ last 3 bytes of the default device's
link-local address, and shutdown leaves exactly the same two MACs derived
the same way, so group membership round-trips. -/
theorem C9_init_shutdown_round_trip (env : Env) (nd : Netif)
    (hdev : env.net_default_dev = some nd)
    (hll : nd.ip6_lladdr.s6_addr.length = 16) :
    ∃ m1 m2,
      net_ipv6_init env = some (0, [Event.mcastAdd m1, Event.mcastAdd m2]) ∧
      net_ipv6_shutdown env = some [Event.mcastDel m1, Event.mcastDel m2] ∧
      m1 = [0x33, 0x33, 0x00, 0x00, 0x00, 0x01] ∧
      m2 = [0x33, 0x33, 0xFF] ++ nd.ip6_lladdr.s6_addr.drop 13 := by
  refine ⟨all_nodes_mac, solicited_mac nd, ?_, ?_, rfl, ?_⟩
  · simp [net_ipv6_init, hdev]
  · simp [net_ipv6_shutdown, hdev]
  · rw [drop13_of_len16 _ hll]
    rfl

/-- Witness for C9 on the concrete environment env0. -/
theorem C9_init_shutdown_round_trip_witness :
    env0.net_default_dev = some net0 ∧
    net0.ip6_lladdr.s6_addr.length = 16 ∧
    ∃ m1 m2,
      net_ipv6_init env0 = some (0, [Event.mcastAdd m1, Event.mcastAdd m2]) ∧
      net_ipv6_shutdown env0 = some [Event.mcastDel m1, Event.mcastDel m2] ∧
      m1 = [0x33, 0x33, 0x00, 0x00, 0x00, 0x01] ∧
      m2 = [0x33, 0x33, 0xFF] ++ net0.ip6_lladdr.s6_addr.drop 13 :=
  ⟨rfl, by decide,
   C9_init_shutdown_round_trip env0 net0 rfl (by decide)⟩

theorem frame_take6 (l1 l2 l3 l4 l5 : List Nat) (h : l1.length = 6) :
    (l1 ++ l2 ++ l3 ++ l4 ++ l5).take 6 = l1 := by
  have hx : l1 ++ l2 ++ l3 ++ l4 ++ l5 = l1 ++ (l2 ++ (l3 ++ (l4 ++ l5))) := by
    simp [List.append_assoc]
  rw [hx]
  exact List.take_left' h

theorem frame_ethertype (l1 l2 l4 l5 : List Nat)
    (h1 : l1.length = 6) (h2 : l2.length = 6) :
    ((l1 ++ l2 ++ [0x86, 0xDD] ++ l4 ++ l5).drop 12).take 2 = [0x86, 0xDD] := by
  have hx : l1 ++ l2 ++ [0x86, 0xDD] ++ l4 ++ l5 =
      (l1 ++ l2) ++ (([0x86, 0xDD] : List Nat) ++ (l4 ++ l5)) := by
    simp [List.append_assoc]
  rw [hx, List.drop_left' (by simp [h1, h2])]
  exact List.take_left' (by simp)

theorem multicast_not_loopback {a : In6Addr}
    (h : IN6_IS_ADDR_MULTICAST a = true) :
    IN6_IS_ADDR_LOOPBACK a = false := by
  rw [IN6_IS_ADDR_LOOPBACK, beq_eq_false_iff_ne]
  intro heq
  rw [IN6_IS_ADDR_MULTICAST, heq] at h
  exact absurd h (by decide)

theorem assemble_tx_eq (env : Env) (st : Stats) (net : Netif)
    (hdr : Ipv6Hdr) (data : List Nat) (dst_mac : List Nat)
    (pre : List Event) :
    assemble_tx env st net hdr data dst_mac pre =
      ⟨0, { st with pkt_sent := st.pkt_sent + 1 },
       pre ++ [Event.tx
         (dst_mac.take 6 ++ net.mac_addr.take 6 ++ [0x86, 0xDD] ++
           serializeHdr hdr ++ data)
         (40 + data.length + 14) NETIF_BLOCK
         (env.if_tx
           (dst_mac.take 6 ++ net.mac_addr.take 6 ++ [0x86, 0xDD] ++
             serializeHdr hdr ++ data)
           (40 + data.length + 14) NETIF_BLOCK)],
       none⟩ := rfl

theorem send_packet_multicast_eq (env : Env) (st : Stats) (net : Netif)
    (hdr : Ipv6Hdr) (data : List Nat)
    (hnl : IN6_IS_ADDR_LOOPBACK hdr.dst_addr = false)
    (hmc : IN6_IS_ADDR_MULTICAST hdr.dst_addr = true) :
    net_ipv6_send_packet env st (some net) hdr data =
      assemble_tx env st net hdr data
        [0x33, 0x33, hdr.dst_addr.s6_addr.getD 12 0,
         hdr.dst_addr.s6_addr.getD 13 0, hdr.dst_addr.s6_addr.getD 14 0,
         hdr.dst_addr.s6_addr.getD 15 0] [] := by
  simp [net_ipv6_send_packet, hnl, hmc]

theorem send_packet_unreachable_eq (env : Env) (st : Stats) (net : Netif)
    (hdr : Ipv6Hdr) (data : List Nat) (d : In6Addr)
    (hnl : IN6_IS_ADDR_LOOPBACK hdr.dst_addr = false)
    (hnm : IN6_IS_ADDR_MULTICAST hdr.dst_addr = false)
    (hd : d = if is_in_network net hdr.dst_addr then hdr.dst_addr
              else net.ip6_gateway)
    (hndp : env.ndp d = NdpRes.unreachable) :
    net_ipv6_send_packet env st (some net) hdr data =
      ⟨-1, { st with pkt_send_failed := st.pkt_send_failed + 1 },
       [Event.ndpLookup d], some ENETUNREACH⟩ := by
  subst hd
  simp [net_ipv6_send_packet, hnl, hnm, hndp]

theorem send_packet_pending_eq (env : Env) (st : Stats) (net : Netif)
    (hdr : Ipv6Hdr) (data : List Nat) (d : In6Addr)
    (hnl : IN6_IS_ADDR_LOOPBACK hdr.dst_addr = false)
    (hnm : IN6_IS_ADDR_MULTICAST hdr.dst_addr = false)
    (hd : d = if is_in_network net hdr.dst_addr then hdr.dst_addr
              else net.ip6_gateway)
    (hndp : env.ndp d = NdpRes.pending) :
    net_ipv6_send_packet env st (some net) hdr data =
      ⟨-2, { st with pkt_send_failed := st.pkt_send_failed + 1 },
       [Event.ndpLookup d], none⟩ := by
  subst hd
  simp [net_ipv6_send_packet, hnl, hnm, hndp]

theorem send_packet_ndp_ok_eq (env : Env) (st : Stats) (net : Netif)
    (hdr : Ipv6Hdr) (data : List Nat) (d : In6Addr) (mac : List Nat)
    (hnl : IN6_IS_ADDR_LOOPBACK hdr.dst_addr = false)
    (hnm : IN6_IS_ADDR_MULTICAST hdr.dst_addr = false)
    (hd : d = if is_in_network net hdr.dst_addr then hdr.dst_addr
              else net.ip6_gateway)
    (hndp : env.ndp d = NdpRes.ok mac) :
    net_ipv6_send_packet env st (some net) hdr data =
      assemble_tx env st net hdr data mac [Event.ndpLookup d] := by
  subst hd
  simp [net_ipv6_send_packet, hnl, hnm, hndp]

/-- Claim C2: for a multicast destination the derived 6-byte link-layer
destination is 33:33 followed by bytes 12..15 of the destination address,
no neighbor resolution happens, and the assembled Ethernet frame starts
with that MAC and carries ethertype 0x86DD at offsets 12..13. -/
theorem C2_multicast_send (env : Env) (st : Stats) (net : Netif)
    (hdr : Ipv6Hdr) (data : List Nat) (out : EngineOut)
    (hout : out = net_ipv6_send_packet env st (some net) hdr data)
    (hmc : IN6_IS_ADDR_MULTICAST hdr.dst_addr = true)
    (hmac : net.mac_addr.length = 6)
    (dmac frame : List Nat)
    (hdmac : dmac = [0x33, 0x33, hdr.dst_addr.s6_addr.getD 12 0,
      hdr.dst_addr.s6_addr.getD 13 0, hdr.dst_addr.s6_addr.getD 14 0,
      hdr.dst_addr.s6_addr.getD 15 0])
    (hframe : frame = dmac ++ net.mac_addr ++ [0x86, 0xDD] ++
      serializeHdr hdr ++ data) :
    out.events = [Event.tx frame (40 + data.length + 14) NETIF_BLOCK
      (env.if_tx frame (40 + data.length + 14) NETIF_BLOCK)] ∧
    (∀ t, Event.ndpLookup t ∉ out.events) ∧
    frame.take 6 = dmac ∧
    (frame.drop 12).take 2 = [0x86, 0xDD] := by
  have hnl := multicast_not_loopback hmc
  subst hout hframe hdmac
  rw [send_packet_multicast_eq env st net hdr data hnl hmc, assemble_tx_eq]
  have hm6 : net.mac_addr.take 6 = net.mac_addr :=
    List.take_of_length_le (le_of_eq hmac)
  have h6 : ([0x33, 0x33, hdr.dst_addr.s6_addr.getD 12 0,
      hdr.dst_addr.s6_addr.getD 13 0, hdr.dst_addr.s6_addr.getD 14 0,
      hdr.dst_addr.s6_addr.getD 15 0] : List Nat).take 6 =
      [0x33, 0x33, hdr.dst_addr.s6_addr.getD 12 0,
       hdr.dst_addr.s6_addr.getD 13 0, hdr.dst_addr.s6_addr.getD 14 0,
       hdr.dst_addr.s6_addr.getD 15 0] :=
    List.take_of_length_le (by simp)
  refine ⟨by simp [hm6, h6], by simp, frame_take6 _ _ _ _ _ (by simp),
    frame_ethertype _ _ _ _ (by simp) hmac⟩

/-- Witness for C2: sending to ff02::1 derives MAC 33:33:00:00:00:01 and
transmits a frame with ethertype 0x86DD. -/
theorem C2_multicast_send_witness :
    IN6_IS_ADDR_MULTICAST hdrMc.dst_addr = true ∧
    net0.mac_addr.length = 6 ∧
    ((net_ipv6_send_packet env0 st0 (some net0) hdrMc [1, 2, 3]).events =
      [Event.tx ([0x33, 0x33, 0, 0, 0, 1] ++ net0.mac_addr ++ [0x86, 0xDD] ++
          serializeHdr hdrMc ++ [1, 2, 3]) (40 + 3 + 14) NETIF_BLOCK
        (env0.if_tx ([0x33, 0x33, 0, 0, 0, 1] ++ net0.mac_addr ++ [0x86, 0xDD] ++
          serializeHdr hdrMc ++ [1, 2, 3]) (40 + 3 + 14) NETIF_BLOCK)]) :=
  ⟨by decide, by decide,
   (C2_multicast_send env0 st0 net0 hdrMc [1, 2, 3] _ rfl (by decide) (by decide)
     ([0x33, 0x33, 0, 0, 0, 1])
     ([0x33, 0x33, 0, 0, 0, 1] ++ net0.mac_addr ++ [0x86, 0xDD] ++
       serializeHdr hdrMc ++ [1, 2, 3]) (by decide) rfl).1⟩

/-- Claim C3: a unicast (non-loopback, non-multicast) send classifies the
destination as on-link iff it is link-local or shares its first 8 bytes
with a configured interface address, otherwise resolves the gateway; the
resolver is invoked with that target, resolver failure yields
NetworkUnreachable (errno ENETUNREACH, return -1) with send-failed bumped,
resolver pending yields the distinct status -2 with send-failed bumped,
and only resolver success assembles and transmits a frame. -/
theorem C3_unicast_send (env : Env) (st : Stats) (net : Netif)
    (hdr : Ipv6Hdr) (data : List Nat) (out : EngineOut) (target : In6Addr)
    (hout : out = net_ipv6_send_packet env st (some net) hdr data)
    (hnl : IN6_IS_ADDR_LOOPBACK hdr.dst_addr = false)
    (hnm : IN6_IS_ADDR_MULTICAST hdr.dst_addr = false)
    (htarget : target = if is_in_network net hdr.dst_addr then hdr.dst_addr
               else net.ip6_gateway) :
    (is_in_network net hdr.dst_addr = true ↔
      (IN6_IS_ADDR_LINKLOCAL hdr.dst_addr = true ∨
       ∃ a ∈ net.ip6_addrs, hdr.dst_addr.s6_addr.take 8 = a.s6_addr.take 8)) ∧
    out.events.head? = some (Event.ndpLookup target) ∧
    (env.ndp target = NdpRes.unreachable →
      out.ret = -1 ∧ out.errno_set = some ENETUNREACH ∧
      out.stats.pkt_send_failed = st.pkt_send_failed + 1 ∧
      out.stats.pkt_sent = st.pkt_sent ∧
      ∀ e ∈ out.events, e.isTx = false) ∧
    (env.ndp target = NdpRes.pending →
      out.ret = -2 ∧ (-2 : Int) ≠ -1 ∧
      out.stats.pkt_send_failed = st.pkt_send_failed + 1 ∧
      out.stats.pkt_sent = st.pkt_sent ∧
      ∀ e ∈ out.events, e.isTx = false) ∧
    (∀ mac, env.ndp target = NdpRes.ok mac →
      out.ret = 0 ∧ out.stats.pkt_sent = st.pkt_sent + 1 ∧
      out.stats.pkt_send_failed = st.pkt_send_failed ∧
      out.events = [Event.ndpLookup target,
        Event.tx (mac.take 6 ++ net.mac_addr.take 6 ++ [0x86, 0xDD] ++
            serializeHdr hdr ++ data) (40 + data.length + 14) NETIF_BLOCK
          (env.if_tx (mac.take 6 ++ net.mac_addr.take 6 ++ [0x86, 0xDD] ++
            serializeHdr hdr ++ data) (40 + data.length + 14) NETIF_BLOCK)]) := by
  subst hout
  refine ⟨?_, ?_, ?_, ?_, ?_⟩
  · simp [is_in_network, List.any_eq_true, Bool.or_eq_true, beq_iff_eq]
  · rcases hndp : env.ndp target with mac | _ | _
    · rw [send_packet_ndp_ok_eq env st net hdr data target mac hnl hnm htarget
        hndp, assemble_tx_eq]
      rfl
    · rw [send_packet_unreachable_eq env st net hdr data target hnl hnm htarget
        hndp]
      rfl
    · rw [send_packet_pending_eq env st net hdr data target hnl hnm htarget hndp]
      rfl
  · intro hndp
    rw [send_packet_unreachable_eq env st net hdr data target hnl hnm htarget
      hndp]
    exact ⟨rfl, rfl, rfl, rfl, by simp [Event.isTx]⟩
  · intro hndp
    rw [send_packet_pending_eq env st net hdr data target hnl hnm htarget hndp]
    exact ⟨rfl, by decide, rfl, rfl, by simp [Event.isTx]⟩
  · intro mac hndp
    rw [send_packet_ndp_ok_eq env st net hdr data target mac hnl hnm htarget
      hndp, assemble_tx_eq]
    exact ⟨rfl, rfl, rfl, rfl⟩

/-- Witness for C3: addrB shares net0's configured /64 prefix, so it is
resolved directly; env0's resolver succeeds and the frame goes out. -/
theorem C3_unicast_send_witness :
    IN6_IS_ADDR_LOOPBACK hdrUni.dst_addr = false ∧
    IN6_IS_ADDR_MULTICAST hdrUni.dst_addr = false ∧
    addrB = (if is_in_network net0 hdrUni.dst_addr then hdrUni.dst_addr
             else net0.ip6_gateway) ∧
    ((net_ipv6_send_packet env0 st0 (some net0) hdrUni [9, 9, 9]).ret = 0 ∧
      (net_ipv6_send_packet env0 st0 (some net0) hdrUni [9, 9, 9]).stats.pkt_sent
        = st0.pkt_sent + 1 ∧
      (net_ipv6_send_packet env0 st0 (some net0) hdrUni [9, 9, 9]).stats.pkt_send_failed
        = st0.pkt_send_failed ∧
      (net_ipv6_send_packet env0 st0 (some net0) hdrUni [9, 9, 9]).events =
        [Event.ndpLookup addrB,
         Event.tx (([0, 1, 2, 3, 4, 5] : List Nat).take 6 ++
             net0.mac_addr.take 6 ++ [0x86, 0xDD] ++ serializeHdr hdrUni ++
             [9, 9, 9]) (40 + 3 + 14) NETIF_BLOCK
           (env0.if_tx (([0, 1, 2, 3, 4, 5] : List Nat).take 6 ++
             net0.mac_addr.take 6 ++ [0x86, 0xDD] ++ serializeHdr hdrUni ++
             [9, 9, 9]) (40 + 3 + 14) NETIF_BLOCK)]) :=
  ⟨by decide, by decide, by decide,
   (C3_unicast_send env0 st0 net0 hdrUni [9, 9, 9] _ addrB rfl (by decide)
     (by decide) (by decide)).2.2.2.2 [0, 1, 2, 3, 4, 5] rfl⟩

/-- Counterexample to claim C7 as stated: in envFailTx every transmit
call reports failure (-1), yet the multicast send returns 0 — the source
discards if_tx's return value, so transmit failure is not surfaced. -/
theorem C7_tx_failure_not_surfaced_cex :
    envFailTx.if_tx [] 0 0 = -1 ∧
    (net_ipv6_send_packet envFailTx st0 (some net0) hdrMc [1, 2, 3]).events.map
      Event.txRet = [some (-1)] ∧
    (net_ipv6_send_packet envFailTx st0 (some net0) hdrMc [1, 2, 3]).ret = 0 ∧
    ((0 : Int) ≠ -1) := by
  decide

/-- Claim C7 (amended): a non-loopback send that reaches frame assembly
invokes the blocking transmit exactly once (no retry), and the transmit
operation's return status is discarded: the send returns success (0)
regardless of the reported transmit outcome. -/
theorem C7_single_tx_status_ignored (env : Env) (st : Stats) (net : Netif)
    (hdr : Ipv6Hdr) (data : List Nat) (out : EngineOut)
    (hout : out = net_ipv6_send_packet env st (some net) hdr data)
    (hnl : IN6_IS_ADDR_LOOPBACK hdr.dst_addr = false)
    (hreach : IN6_IS_ADDR_MULTICAST hdr.dst_addr = true ∨
      ∃ mac, env.ndp (if is_in_network net hdr.dst_addr then hdr.dst_addr
        else net.ip6_gateway) = NdpRes.ok mac) :
    (out.events.filter Event.isTx).length = 1 ∧ out.ret = 0 := by
  subst hout
  by_cases hmc : IN6_IS_ADDR_MULTICAST hdr.dst_addr = true
  · rw [send_packet_multicast_eq env st net hdr data hnl hmc, assemble_tx_eq]
    exact ⟨by simp [Event.isTx], rfl⟩
  · have hnm : IN6_IS_ADDR_MULTICAST hdr.dst_addr = false := by
      revert hmc
      cases IN6_IS_ADDR_MULTICAST hdr.dst_addr <;> simp
    rcases hreach with h | ⟨mac, hm⟩
    · exact absurd h hmc
    · rw [send_packet_ndp_ok_eq env st net hdr data _ mac hnl hnm rfl hm,
        assemble_tx_eq]
      exact ⟨by simp [Event.isTx], rfl⟩

/-- Witness for the amended C7 on a concrete multicast send. -/
theorem C7_single_tx_status_ignored_witness :
    IN6_IS_ADDR_LOOPBACK hdrMc.dst_addr = false ∧
    (((net_ipv6_send_packet envFailTx st0 (some net0) hdrMc [1, 2, 3]).events.filter
        Event.isTx).length = 1 ∧
      (net_ipv6_send_packet envFailTx st0 (some net0) hdrMc [1, 2, 3]).ret = 0) :=
  ⟨by decide,
   C7_single_tx_status_ignored envFailTx st0 net0 hdrMc [1, 2, 3] _ rfl
     (by decide) (Or.inl (by decide))⟩

/-- Claim C8 concerns behaviour the source does not implement: sending a
2000-byte payload through an interface whose configured MTU is 1500 is
not rejected — net_ipv6_send_packet sizes its frame buffer from the
payload with no MTU bound, serializes, transmits a 2054-byte frame and
returns success, where the spec requires a fail-fast error before
serialization. -/
theorem C8_oversized_payload_transmitted :
    net0.mtu = 1500 ∧
    (net_ipv6_send_packet env0 st0 (some net0) hdrBig bigData).ret = 0 ∧
    (net_ipv6_send_packet env0 st0 (some net0) hdrBig bigData).events.map
      Event.txLen = [some 2054] ∧
    net0.mtu < 2054 := by
  have hm := send_packet_multicast_eq env0 st0 net0 hdrBig bigData (by decide)
    (by decide)
  refine ⟨rfl, ?_, ?_, by norm_num [net0]⟩
  · rw [hm, assemble_tx_eq]
  · rw [hm, assemble_tx_eq]
    simp only [List.nil_append, List.map_cons, List.map_nil, Event.txLen,
      bigData, List.length_replicate]

end NetIpv6
